import Mathlib

/-!
# Verification of the simplelog logging service

A shallow embedding of the `simplelog` Go package: the controller's state
bitmask, the writer's message queue and multi-target log writers, and the
public API guards. Channels are modelled as FIFO lists, the file system as
an event trace, and Go panics as `Except.error` carrying the panic message.
-/

namespace Simplelog

/-! ## Constants from the source

Log targets (`service` file, `stdout = iota; file; multi`), service states
bitmask (`stopped = 1 << iota; running`), service actions, configuration
categories and the message catalog. -/

def stdout : Nat := 0
def file : Nat := 1
def multi : Nat := 2

def stopped : Nat := 1
def running : Nat := 2

def start : Nat := 0
def stop : Nat := 1

def initlog : Nat := 0
def changelog : Nat := 1

def m001 : String := "log file not initialized"
def m002 : String := "log service was already started"
def m003 : String := "log service is not running"
def m004 : String := "log service has not been started"

/-! ## Controller state (control.run)

`totalState` is the lifecycle bitmask held by the control goroutine.
`setState` embeds the `setServiceState` case of `control.run`: `stopped`
resets the mask, anything else is OR'd in.  `checkState` embeds the
`checkServiceState` case: `totalState&state == state`. -/

def setState (totalState singleState : Nat) : Nat :=
  if singleState == stopped then
    singleState
  else
    totalState ||| singleState

def checkState (totalState state : Nat) : Bool :=
  totalState &&& state == state

/-! ## Messages, lines and events

`logMessage` mirrors the Go struct.  A `Line` is one line of output; its
`withTimestamp` field models the `log.Logger` flag set
`log.Ldate|log.Ltime|log.Lmicroseconds` used for the file logger (the
stdout logger is created with flag 0, no timestamp prefix).  `Ev` is the
trace of externally visible effects: a write to stdout, a line entering
the buffered file writer (`bufio.Writer`, targeted at the file it wraps),
a buffer flush into a file, a file open/close, and the two completion
signals (`c.setState(stopped)` and `execServiceActionResponse`). -/

structure logMessage where
  target : Nat
  data : String
deriving DecidableEq, Repr

structure Line where
  withTimestamp : Bool
  data : String
deriving DecidableEq, Repr

/-- The empty separator line written by `fileWriter.WriteString("\n")`. -/
def blankLine : Line := ⟨false, ""⟩

/-- An stdout output line: no timestamp prefix (logger flag 0). -/
def stdoutLine (d : String) : Line := ⟨false, d⟩

/-- A file output line: date-time-microsecond timestamp prefix
(`log.Ldate|log.Ltime|log.Lmicroseconds`). -/
def fileLine (d : String) : Line := ⟨true, d⟩

inductive Ev where
  | outWrite (l : Line)
  | bufWrite (path : String) (l : Line)
  | fileFlush (path : String) (ls : List Line)
  | fileOpen (path : String)
  | fileClose (path : String)
  | sigStopped
  | sigDone
deriving DecidableEq, Repr

/-! ## The multi-target log writer (stdoutLog / fileLog / multiLog)

The Go `fileLog` holds a `*bufio.Writer` that wraps the file descriptor
captured at creation time; it is modelled as `Option (String × List Line)`:
the captured file path and the buffered, not yet flushed lines.  `none`
models a nil pointer.  Go panics are `Except.error` with the panic
message.  The background goroutine that flushes the buffer every two
seconds is wall-clock concurrency and is not modelled; the code paths the
claims cite flush explicitly (`closeLogFile`). -/

structure stdoutLog where
  stdoutLogInstance : Bool
deriving DecidableEq, Repr

structure fileLog where
  fileWriter : Option (String × List Line)
  fileDesc : Option String
  fileLogInstance : Bool
deriving DecidableEq, Repr

structure multiLog extends stdoutLog, fileLog
deriving DecidableEq, Repr

def multiLog.init : multiLog := ⟨⟨false⟩, ⟨none, none, false⟩⟩

/-- Source method `stdoutLog.instance`: creates the stdout logger
(`log.New(os.Stdout, "", 0)`) if it does not exist yet.  Creation writes
nothing. -/
def stdoutLog.mkInstance (s : stdoutLog) : stdoutLog :=
  { s with stdoutLogInstance := true }

/-- Method `Print` of the stdout logger: one untimestamped line to stdout. -/
def stdoutLog.print (s : stdoutLog) (d : String) : stdoutLog × List Ev :=
  (s.mkInstance, [Ev.outWrite (stdoutLine d)])

/-- Source method `fileLog.instance`: if no cached logger exists, panic
with `m001` when no file descriptor is set, otherwise allocate a fresh
`bufio.Writer` over the current descriptor, create the logger with the
timestamp flags, and write the blank separator line into the buffer. -/
def fileLog.mkInstance (s : fileLog) : Except String (fileLog × List Ev) :=
  if s.fileLogInstance then
    .ok (s, [])
  else
    match s.fileDesc with
    | none => .error m001
    | some p =>
        .ok ({ s with fileWriter := some (p, [blankLine]), fileLogInstance := true },
             [Ev.bufWrite p blankLine])

/-- Method `Print` of the file logger: ensure the cached instance exists,
then append one timestamped line to the buffered writer. -/
def fileLog.print (s : fileLog) (d : String) : Except String (fileLog × List Ev) := do
  let (s1, evs) ← s.mkInstance
  match s1.fileWriter with
  | none => .error "nil fileWriter"
  | some (p, buf) =>
      .ok ({ s1 with fileWriter := some (p, buf ++ [fileLine d]) },
           evs ++ [Ev.bufWrite p (fileLine d)])

/-- Source method `multiLog.setupLogFile`: `os.OpenFile(logName, O_APPEND|O_CREATE|O_WRONLY)`;
an open error panics in Go and is not modelled (the open is assumed to
succeed). -/
def multiLog.setupLogFile (s : multiLog) (logName : String) : multiLog × List Ev :=
  ({ s with fileDesc := some logName }, [Ev.fileOpen logName])

/-- Source method `multiLog.closeLogFile`: if a descriptor is open, flush the buffered
writer when it holds data (`Buffered() > 0`; calling it on a nil writer is
a nil-pointer dereference), close the descriptor and set it to nil. -/
def multiLog.closeLogFile (s : multiLog) : Except String (multiLog × List Ev) :=
  match s.fileDesc with
  | none => .ok (s, [])
  | some p =>
      match s.fileWriter with
      | none => .error "nil fileWriter"
      | some (q, buf) =>
          .ok ({ s with fileWriter := some (q, []), fileDesc := none },
               (if buf.isEmpty then [] else [Ev.fileFlush q buf]) ++ [Ev.fileClose p])

/-- Source method `multiLog.changeLogFileName`: close the old log file, discard the
cached file log instance, open the new one. -/
def multiLog.changeLogFileName (s : multiLog) (newLogName : String) :
    Except String (multiLog × List Ev) := do
  let (s1, e1) ← s.closeLogFile
  let s2 := { s1 with fileLogInstance := false }
  let (s3, e3) := s2.setupLogFile newLogName
  .ok (s3, e1 ++ e3)

/-- Apply `stdoutLog.print` to the embedded stdout writer. -/
def multiLog.printStdout (s : multiLog) (d : String) : multiLog × List Ev :=
  let (so, evs) := s.tostdoutLog.print d
  ({ s with tostdoutLog := so }, evs)

/-- Apply `fileLog.print` to the embedded file writer. -/
def multiLog.printFile (s : multiLog) (d : String) : Except String (multiLog × List Ev) := do
  let (f, evs) ← s.tofileLog.print d
  .ok ({ s with tofileLog := f }, evs)

/-- Source method `logService.writeMessage`: dispatch one log message to its target;
`multi` writes to stdout first, then to the file. -/
def writeMessage (s : multiLog) (msg : logMessage) : Except String (multiLog × List Ev) :=
  if msg.target == stdout then
    .ok (s.printStdout msg.data)
  else if msg.target == file then
    s.printFile msg.data
  else if msg.target == multi then do
    let (s1, e1) := s.printStdout msg.data
    let (s2, e2) ← s1.printFile msg.data
    .ok (s2, e1 ++ e2)
  else
    .ok (s, [])

/-- Source method `logService.flush`: drain the buffered data channel
(`for len(s.logData) > 0 { s.writeMessage(<-s.logData) }`), writing the
queued messages in FIFO order. -/
def flush (s : multiLog) : List logMessage → Except String (multiLog × List Ev)
  | [] => .ok (s, [])
  | msg :: rest => do
      let (s1, e1) ← writeMessage s msg
      let (s2, e2) ← flush s1 rest
      .ok (s2, e1 ++ e2)

/-! ## The log service event loop (logService.run)

The writer's state is the FIFO contents of the buffered `logData` channel
plus the multi-target writer.  Each `case` of the `select` in
`logService.run` becomes a handler. -/

structure logService where
  queue : List logMessage
  ml : multiLog
deriving DecidableEq, Repr

/-- The `<-s.serviceStop` case: flush the remaining channel contents, then
terminate; the deferred `c.setState(stopped)` signals the Stopped state as
the very last step. -/
def handleStop (s : logService) : Except String (logService × List Ev) := do
  let (ml1, evs) ← flush s.ml s.queue
  .ok (⟨[], ml1⟩, evs ++ [Ev.sigStopped])

/-- The `initlog` config case: open the log file, then acknowledge. -/
def handleInitlog (s : logService) (logName : String) : logService × List Ev :=
  let (ml1, e1) := s.ml.setupLogFile logName
  (⟨s.queue, ml1⟩, e1 ++ [Ev.sigDone])

/-- The `newlog` config case: flush everything already in the data channel
to the old log file, switch the log file, then acknowledge. -/
def handleNewlog (s : logService) (newLogName : String) :
    Except String (logService × List Ev) := do
  let (ml1, e1) ← flush s.ml s.queue
  let (ml2, e2) ← ml1.changeLogFileName newLogName
  .ok (⟨[], ml2⟩, e1 ++ e2 ++ [Ev.sigDone])

/-- The full shutdown pipeline: the writer handles the stop signal, then
the control's stop goroutine calls `s.closeLogFile()` once the Stopped
state is observed. -/
def shutdownProcess (s : logService) : Except String (logService × List Ev) := do
  let (s1, e1) ← handleStop s
  let (ml2, e2) ← s1.ml.closeLogFile
  .ok (⟨s1.queue, ml2⟩, e1 ++ e2)

/-! ## Trace observations -/

/-- Lines durably written to the file at path `p` (flush events). -/
def fileContents (p : String) : List Ev → List Line
  | [] => []
  | Ev.fileFlush q ls :: rest => (if q == p then ls else []) ++ fileContents p rest
  | _ :: rest => fileContents p rest

/-- Lines written to stdout, in order. -/
def stdoutOut : List Ev → List Line
  | [] => []
  | Ev.outWrite l :: rest => l :: stdoutOut rest
  | _ :: rest => stdoutOut rest

/-- Lines entering the buffered file writer, in order. -/
def bufOut : List Ev → List Line
  | [] => []
  | Ev.bufWrite _ l :: rest => l :: bufOut rest
  | _ :: rest => bufOut rest

/-- Timestamped data lines entering the file writer (the blank separator
line carries no timestamp and is dropped). -/
def fileDataOut (evs : List Ev) : List Line :=
  (bufOut evs).filter (·.withTimestamp)

/-- An event list consisting only of writes (no flush, open, close or
signal events). -/
def pureWrites : List Ev → Bool
  | [] => true
  | Ev.outWrite _ :: rest => pureWrites rest
  | Ev.bufWrite _ _ :: rest => pureWrites rest
  | _ :: _ => false

/-- The stdout copies a FIFO queue owes: one untimestamped line per
`stdout` or `multi` message. -/
def stdoutMsgs (q : List logMessage) : List Line :=
  q.filterMap (fun msg =>
    if msg.target == stdout || msg.target == multi then some (stdoutLine msg.data) else none)

/-- The file copies a FIFO queue owes: one timestamped line per `file` or
`multi` message. -/
def fileMsgs (q : List logMessage) : List Line :=
  q.filterMap (fun msg =>
    if msg.target == file || msg.target == multi then some (fileLine msg.data) else none)

/-- The cached-logger invariant: a cached file log instance implies the
buffered writer exists (they are created together). -/
def wfFile (s : multiLog) : Prop := s.fileLogInstance = true → s.fileWriter ≠ none

/-- File writes can proceed: either the cached logger already exists or a
file descriptor is set. -/
def fileOk (s : multiLog) : Prop := s.fileLogInstance = true ∨ s.fileDesc ≠ none

/-! ## Lifecycle transitions

A `Startup` call that passes its guard makes the controller reset a mask
that equals `stopped` to 0 (start case of `control.run`), then the writer
task's `run` performs `setState running`; `Startup` returns only after the
auxiliary waiter has observed `running`.  A `Shutdown` call that passes its
guard sends the stop signal and the writer's deferred `setState stopped`
runs; `Shutdown` returns only after `stopped` is observed.  Guard failures
panic (`Except.error`) and leave the mask untouched. -/

inductive LifeApi where
  | startup (bufferSize : Nat)
  | shutdown
deriving DecidableEq, Repr

def lifeStep (m : Nat) : LifeApi → Except String Nat
  | .startup _ =>
      if checkState m running then
        .error m002
      else
        .ok (setState (if m == stopped then 0 else m) running)
  | .shutdown =>
      if checkState m running then
        .ok (setState m stopped)
      else
        .error m003

/-- Masks reachable from the initial mask 0 by successful API calls. -/
inductive Reachable : Nat → Prop where
  | init : Reachable 0
  | step {m a m'} : Reachable m → lifeStep m a = .ok m' → Reachable m'

/-! ## Public API guards (simplelog file)

Each API function first interrogates the controller via
`c.checkState(running)` (a request/response exchange with the control
goroutine, which always serves) and only then sends on a service channel.
A `Send` value records which channel message a successful call emits; a
wrong-phase call panics (`Except.error`) and emits nothing. -/

inductive Send where
  | dataMsg (msg : logMessage)
  | configMsg (category : Nat) (data : String)
  | actionMsg (action : Nat)
deriving DecidableEq, Repr

/-- API function `Startup`: refuse (panic `m002`) while running, otherwise set the
`logbuffer` attribute and trigger the start action. -/
def Startup (totalState : Nat) (bufferSize : Nat) : Except String Send :=
  if !(checkState totalState running) then
    .ok (Send.actionMsg start)
  else
    .error m002

/-- API function `Shutdown`: refuse (panic `m003`) unless running, otherwise trigger
the stop action. -/
def Shutdown (totalState : Nat) : Except String Send :=
  if checkState totalState running then
    .ok (Send.actionMsg stop)
  else
    .error m003

/-- API function `InitLogFile`: refuse (panic `m004`) unless running, otherwise send
the initlog config message. -/
def InitLogFile (totalState : Nat) (logName : String) : Except String Send :=
  if checkState totalState running then
    .ok (Send.configMsg initlog logName)
  else
    .error m004

/-- API function `ChangeLogName`: refuse (panic `m004`) unless running, otherwise send
the changelog config message. -/
def ChangeLogName (totalState : Nat) (newLogName : String) : Except String Send :=
  if checkState totalState running then
    .ok (Send.configMsg changelog newLogName)
  else
    .error m004

/-- API function `WriteToStdout`: refuse (panic `m004`) unless running, otherwise
enqueue a stdout message on the data channel. -/
def WriteToStdout (totalState : Nat) (msg : String) : Except String Send :=
  if checkState totalState running then
    .ok (Send.dataMsg ⟨stdout, msg⟩)
  else
    .error m004

/-- API function `WriteToFile`: refuse (panic `m004`) unless running; panic `m001` when
no log file descriptor is set; otherwise enqueue a file message. -/
def WriteToFile (totalState : Nat) (fileDesc : Option String) (msg : String) :
    Except String Send :=
  if checkState totalState running then
    if fileDesc = none then
      .error m001
    else
      .ok (Send.dataMsg ⟨file, msg⟩)
  else
    .error m004

/-- API function `WriteToMulti`: refuse (panic `m004`) unless running; panic `m001`
when no log file descriptor is set; otherwise enqueue a multi message. -/
def WriteToMulti (totalState : Nat) (fileDesc : Option String) (msg : String) :
    Except String Send :=
  if checkState totalState running then
    if fileDesc = none then
      .error m001
    else
      .ok (Send.dataMsg ⟨multi, msg⟩)
  else
    .error m004

/-! ## Startup buffer size handling

`Startup` stores the `logbuffer` attribute with
`s.setAttribut(logbuffer, 10)` — the literal 10; its `bufferSize`
parameter is not used.  The start case of `control.run` then allocates the
data channel with capacity
`strconv.Atoi(convertToString(s.attribute[logbuffer]))`; converting the
stored integer to its decimal string and parsing it back yields the stored
integer itself. -/

def startupLogbufferAttribute (bufferSize : Nat) : Nat := 10

def startChannelCapacity (logbufferAttribute : Nat) : Nat := logbufferAttribute

/-- The capacity of the data channel allocated by `Startup bufferSize`. -/
def startupChannelCapacity (bufferSize : Nat) : Nat :=
  startChannelCapacity (startupLogbufferAttribute bufferSize)

/-! ## A concrete run for the separator-line behaviour

Open `"a"` (InitLogFile), write one file message, switch the log to `"b"`
(ChangeLogName), then close on shutdown, collecting the full trace. -/

def c7run : Except String (multiLog × List Ev) := do
  let (ml1, e1) := multiLog.init.setupLogFile "a"
  let (ml2, e2) ← writeMessage ml1 ⟨file, "x"⟩
  let (ml3, e3) ← ml2.changeLogFileName "b"
  let (ml4, e4) ← ml3.closeLogFile
  .ok (ml4, e1 ++ e2 ++ e3 ++ e4)

def c7finalState : multiLog := ⟨⟨false⟩, ⟨some ("a", []), none, false⟩⟩

def c7trace : List Ev :=
  [Ev.fileOpen "a", Ev.bufWrite "a" blankLine, Ev.bufWrite "a" (fileLine "x"),
   Ev.fileFlush "a" [blankLine, fileLine "x"], Ev.fileClose "a",
   Ev.fileOpen "b", Ev.fileClose "b"]

/-- Every reachable mask is 0, `stopped` or `running`. -/
theorem reachable_cases {m : Nat} (h : Reachable m) :
    m = 0 ∨ m = stopped ∨ m = running := by
  induction h with
  | init => exact Or.inl rfl
  | @step m a m' hr hs ih =>
      rcases ih with h0 | h1 | h2
      · subst h0
        cases a with
        | startup n =>
            rw [show lifeStep 0 (LifeApi.startup n) = Except.ok 2 from rfl] at hs
            simp only [Except.ok.injEq] at hs
            subst hs
            exact Or.inr (Or.inr rfl)
        | shutdown =>
            rw [show lifeStep 0 LifeApi.shutdown = Except.error m003 from rfl] at hs
            exact Except.noConfusion hs
      · subst h1
        cases a with
        | startup n =>
            rw [show lifeStep stopped (LifeApi.startup n) = Except.ok 2 from rfl] at hs
            simp only [Except.ok.injEq] at hs
            subst hs
            exact Or.inr (Or.inr rfl)
        | shutdown =>
            rw [show lifeStep stopped LifeApi.shutdown = Except.error m003 from rfl] at hs
            exact Except.noConfusion hs
      · subst h2
        cases a with
        | startup n =>
            rw [show lifeStep running (LifeApi.startup n) = Except.error m002 from rfl] at hs
            exact Except.noConfusion hs
        | shutdown =>
            rw [show lifeStep running LifeApi.shutdown = Except.ok 1 from rfl] at hs
            simp only [Except.ok.injEq] at hs
            subst hs
            exact Or.inr (Or.inl rfl)

/-- C5: `setState` with `stopped` yields exactly `stopped` (all other bits
cleared); with any other value it ORs the value into the current mask. -/
theorem setState_spec (m v : Nat) :
    (setState m stopped = stopped) ∧ (v ≠ stopped → setState m v = m ||| v) := by
  constructor
  · simp [setState]
  · intro hv
    simp [setState, hv]

/-- Witness for C5: from mask 3, setting `stopped` resets to exactly
`stopped`, while setting `running` (≠ stopped) ORs it in. -/
theorem setState_spec_witness :
    setState 3 stopped = stopped ∧ setState 3 running = 3 ||| running :=
  ⟨(setState_spec 3 running).1, (setState_spec 3 running).2 (by decide)⟩

/-- C9: in every reachable controller state, the `Stopped` and `Running`
bits are never simultaneously set: `checkState stopped` and
`checkState running` cannot both hold. -/
theorem reachable_not_stopped_and_running {m : Nat} (h : Reachable m) :
    ¬(checkState m stopped = true ∧ checkState m running = true) := by
  rcases reachable_cases h with h0 | h1 | h2
  · subst h0; simp [checkState, stopped, running]
  · subst h1; simp [checkState, stopped, running]
  · subst h2; simp [checkState, stopped, running]

/-- Witness for C9: the mask reached by a successful `Startup` from the
initial mask never has both bits set. -/
theorem reachable_not_stopped_and_running_witness :
    ¬(checkState 2 stopped = true ∧ checkState 2 running = true) :=
  reachable_not_stopped_and_running
    (Reachable.step Reachable.init (a := .startup 5) rfl)

/-- C4: the observable lifecycle strictly alternates.  From a reachable
mask, every successful API call toggles the observable state: if the
service is not `Running` the call is a `Startup` and results in `Running`;
if it is `Running` the call is a `Shutdown` and results in not `Running`. -/
theorem lifecycle_alternates {m m' : Nat} {a : LifeApi} (h : Reachable m)
    (hs : lifeStep m a = .ok m') :
    (checkState m running = false →
      (∃ n, a = .startup n) ∧ checkState m' running = true) ∧
    (checkState m running = true →
      a = .shutdown ∧ checkState m' running = false) := by
  rcases reachable_cases h with h0 | h1 | h2
  · subst h0
    cases a with
    | startup n =>
        rw [show lifeStep 0 (LifeApi.startup n) = Except.ok 2 from rfl] at hs
        simp only [Except.ok.injEq] at hs
        subst hs
        exact ⟨fun _ => ⟨⟨n, rfl⟩, rfl⟩, fun hc => absurd hc (by decide)⟩
    | shutdown =>
        rw [show lifeStep 0 LifeApi.shutdown = Except.error m003 from rfl] at hs
        exact Except.noConfusion hs
  · subst h1
    cases a with
    | startup n =>
        rw [show lifeStep stopped (LifeApi.startup n) = Except.ok 2 from rfl] at hs
        simp only [Except.ok.injEq] at hs
        subst hs
        exact ⟨fun _ => ⟨⟨n, rfl⟩, rfl⟩, fun hc => absurd hc (by decide)⟩
    | shutdown =>
        rw [show lifeStep stopped LifeApi.shutdown = Except.error m003 from rfl] at hs
        exact Except.noConfusion hs
  · subst h2
    cases a with
    | startup n =>
        rw [show lifeStep running (LifeApi.startup n) = Except.error m002 from rfl] at hs
        exact Except.noConfusion hs
    | shutdown =>
        rw [show lifeStep running LifeApi.shutdown = Except.ok 1 from rfl] at hs
        simp only [Except.ok.injEq] at hs
        subst hs
        exact ⟨fun hc => absurd hc (by decide), fun _ => ⟨rfl, rfl⟩⟩

/-- Witness for C4: from the running mask reached by `Startup`, `Shutdown`
toggles back to not running. -/
theorem lifecycle_alternates_witness :
    (checkState 2 running = false →
      (∃ n, LifeApi.shutdown = .startup n) ∧ checkState 1 running = true) ∧
    (checkState 2 running = true →
      LifeApi.shutdown = LifeApi.shutdown ∧ checkState 1 running = false) :=
  lifecycle_alternates
    (Reachable.step Reachable.init (a := .startup 5) rfl)
    (a := .shutdown) rfl

/-- C3: the data channel allocated for `Startup n` always has capacity 10,
not the caller-supplied `n`: at the failing input `Startup 5` the capacity
is 10, not 5.  The claim (and the doc comment of `Startup` itself) promise
capacity `n`. -/
theorem startup_capacity_ignores_argument :
    startupChannelCapacity 5 = 10 ∧ startupChannelCapacity 5 ≠ 5 ∧
      ∀ n, startupChannelCapacity n = 10 :=
  ⟨rfl, by decide, fun _ => rfl⟩

/-- C6: every wrong-phase API call fails with its catalog message before
emitting any channel send (the error carries no `Send`): while not
running, `Shutdown` fails with `m003` and `InitLogFile`, `ChangeLogName`
and all Write variants fail with `m004`; while running, `Startup` fails
with `m002`. -/
theorem api_guards (m : Nat) (fd : Option String) (msg p : String) (n : Nat) :
    (checkState m running = false →
      Shutdown m = .error m003 ∧
      InitLogFile m p = .error m004 ∧
      ChangeLogName m p = .error m004 ∧
      WriteToStdout m msg = .error m004 ∧
      WriteToFile m fd msg = .error m004 ∧
      WriteToMulti m fd msg = .error m004) ∧
    (checkState m running = true → Startup m n = .error m002) := by
  constructor
  · intro h
    refine ⟨?_, ?_, ?_, ?_, ?_, ?_⟩ <;>
      simp [Shutdown, InitLogFile, ChangeLogName, WriteToStdout, WriteToFile,
        WriteToMulti, h]
  · intro h
    simp [Startup, h]

/-- Witness for C6: in the stopped state (mask 0) `Shutdown` panics with
`m003` and `WriteToFile` with `m004`; in the running state (mask 2)
`Startup` panics with `m002`. -/
theorem api_guards_witness :
    Shutdown 0 = .error m003 ∧ WriteToFile 0 none "x" = .error m004 ∧
      Startup 2 5 = .error m002 :=
  ⟨((api_guards 0 none "x" "p" 5).1 (by decide)).1,
   ((api_guards 0 none "x" "p" 5).1 (by decide)).2.2.2.2.1,
   (api_guards 2 none "x" "p" 5).2 (by decide)⟩

/-! ## Trace bookkeeping lemmas -/

theorem stdoutOut_append (xs ys : List Ev) :
    stdoutOut (xs ++ ys) = stdoutOut xs ++ stdoutOut ys := by
  induction xs with
  | nil => rfl
  | cons e rest ih => cases e <;> simp [stdoutOut, ih]

theorem bufOut_append (xs ys : List Ev) :
    bufOut (xs ++ ys) = bufOut xs ++ bufOut ys := by
  induction xs with
  | nil => rfl
  | cons e rest ih => cases e <;> simp [bufOut, ih]

theorem fileContents_append (p : String) (xs ys : List Ev) :
    fileContents p (xs ++ ys) = fileContents p xs ++ fileContents p ys := by
  induction xs with
  | nil => rfl
  | cons e rest ih => cases e <;> simp [fileContents, ih]

theorem fileDataOut_append (xs ys : List Ev) :
    fileDataOut (xs ++ ys) = fileDataOut xs ++ fileDataOut ys := by
  simp [fileDataOut, bufOut_append, List.filter_append]

theorem pureWrites_append (xs ys : List Ev) :
    pureWrites (xs ++ ys) = (pureWrites xs && pureWrites ys) := by
  induction xs with
  | nil => rfl
  | cons e rest ih => cases e <;> simp [pureWrites, ih]

theorem fileContents_of_pureWrites (p : String) (xs : List Ev)
    (h : pureWrites xs = true) : fileContents p xs = [] := by
  induction xs with
  | nil => rfl
  | cons e rest ih => cases e <;> simp_all [pureWrites, fileContents]

theorem bind_ok_eq {α β : Type} (a : α) (f : α → Except String β) :
    ((Except.ok a : Except String α) >>= f) = f a := rfl

/-! ## writeMessage case equations -/

theorem writeMessage_stdout_eq (s : multiLog) (d : String) :
    writeMessage s ⟨stdout, d⟩ =
      .ok ({ s with tostdoutLog := ⟨true⟩ }, [Ev.outWrite (stdoutLine d)]) := rfl

theorem writeMessage_file_inst_eq (b : Bool) (fd : Option String) (p : String)
    (buf : List Line) (d : String) :
    writeMessage ⟨⟨b⟩, ⟨some (p, buf), fd, true⟩⟩ ⟨file, d⟩ =
      .ok (⟨⟨b⟩, ⟨some (p, buf ++ [fileLine d]), fd, true⟩⟩,
           [Ev.bufWrite p (fileLine d)]) := rfl

theorem writeMessage_file_fresh_eq (b : Bool) (fw : Option (String × List Line))
    (p : String) (d : String) :
    writeMessage ⟨⟨b⟩, ⟨fw, some p, false⟩⟩ ⟨file, d⟩ =
      .ok (⟨⟨b⟩, ⟨some (p, [blankLine, fileLine d]), some p, true⟩⟩,
           [Ev.bufWrite p blankLine, Ev.bufWrite p (fileLine d)]) := rfl

theorem writeMessage_multi_inst_eq (b : Bool) (fd : Option String) (p : String)
    (buf : List Line) (d : String) :
    writeMessage ⟨⟨b⟩, ⟨some (p, buf), fd, true⟩⟩ ⟨multi, d⟩ =
      .ok (⟨⟨true⟩, ⟨some (p, buf ++ [fileLine d]), fd, true⟩⟩,
           [Ev.outWrite (stdoutLine d), Ev.bufWrite p (fileLine d)]) := rfl

theorem writeMessage_multi_fresh_eq (b : Bool) (fw : Option (String × List Line))
    (p : String) (d : String) :
    writeMessage ⟨⟨b⟩, ⟨fw, some p, false⟩⟩ ⟨multi, d⟩ =
      .ok (⟨⟨true⟩, ⟨some (p, [blankLine, fileLine d]), some p, true⟩⟩,
           [Ev.outWrite (stdoutLine d), Ev.bufWrite p blankLine,
            Ev.bufWrite p (fileLine d)]) := rfl

theorem writeMessage_other_eq (s : multiLog) (t : Nat) (d : String)
    (h0 : t ≠ stdout) (h1 : t ≠ file) (h2 : t ≠ multi) :
    writeMessage s ⟨t, d⟩ = .ok (s, []) := by
  simp [writeMessage, stdout, file, multi] at h0 h1 h2 ⊢
  simp [h0, h1, h2]

/-! ## Queue projection equations -/

theorem stdoutMsgs_stdout (d : String) (rest : List logMessage) :
    stdoutMsgs (⟨stdout, d⟩ :: rest) = stdoutLine d :: stdoutMsgs rest := rfl

theorem stdoutMsgs_file (d : String) (rest : List logMessage) :
    stdoutMsgs (⟨file, d⟩ :: rest) = stdoutMsgs rest := rfl

theorem stdoutMsgs_multi (d : String) (rest : List logMessage) :
    stdoutMsgs (⟨multi, d⟩ :: rest) = stdoutLine d :: stdoutMsgs rest := rfl

theorem stdoutMsgs_other (t : Nat) (d : String) (rest : List logMessage)
    (h0 : t ≠ stdout) (h2 : t ≠ multi) :
    stdoutMsgs (⟨t, d⟩ :: rest) = stdoutMsgs rest := by
  simp [stdoutMsgs, List.filterMap_cons, stdout, multi] at h0 h2 ⊢
  simp [h0, h2]

theorem fileMsgs_stdout (d : String) (rest : List logMessage) :
    fileMsgs (⟨stdout, d⟩ :: rest) = fileMsgs rest := rfl

theorem fileMsgs_file (d : String) (rest : List logMessage) :
    fileMsgs (⟨file, d⟩ :: rest) = fileLine d :: fileMsgs rest := rfl

theorem fileMsgs_multi (d : String) (rest : List logMessage) :
    fileMsgs (⟨multi, d⟩ :: rest) = fileLine d :: fileMsgs rest := rfl

theorem fileMsgs_other (t : Nat) (d : String) (rest : List logMessage)
    (h1 : t ≠ file) (h2 : t ≠ multi) :
    fileMsgs (⟨t, d⟩ :: rest) = fileMsgs rest := by
  simp [fileMsgs, List.filterMap_cons, file, multi] at h1 h2 ⊢
  simp [h1, h2]

/-! ## Draining the data channel -/

/-- Draining a FIFO queue writes every message to its target in order:
the stdout lines are exactly the queue's stdout/multi payloads and the
timestamped file lines are exactly the queue's file/multi payloads, both
in FIFO order, with only write events emitted.  Requires the cached-logger
invariant and, when the queue holds a file-targeted message, that file
writes can proceed. -/
theorem flush_ok (q : List logMessage) : ∀ (s : multiLog),
    wfFile s →
    ((∃ msg ∈ q, msg.target = file ∨ msg.target = multi) → fileOk s) →
    ∃ s' evs, flush s q = .ok (s', evs) ∧
      stdoutOut evs = stdoutMsgs q ∧
      fileDataOut evs = fileMsgs q ∧
      pureWrites evs = true ∧
      wfFile s' ∧ s'.fileDesc = s.fileDesc := by
  induction q with
  | nil =>
      intro s hwf _
      exact ⟨s, [], rfl, rfl, rfl, rfl, hwf, rfl⟩
  | cons msg rest ih =>
      rintro ⟨⟨b⟩, fw, fd, fi⟩ hwf hok
      obtain ⟨t, d⟩ := msg
      have hokRest : ∀ (s' : multiLog), fileOk s' = fileOk ⟨⟨b⟩, fw, fd, fi⟩ →
          ((∃ m ∈ rest, m.target = file ∨ m.target = multi) → fileOk s') := by
        intro s' he hx
        rw [he]
        obtain ⟨m, hm, hp⟩ := hx
        exact hok ⟨m, List.mem_cons_of_mem _ hm, hp⟩
      by_cases h0 : t = stdout
      · subst h0
        obtain ⟨s', evs, hf, h1, h2, h3, h4, h5⟩ :=
          ih ⟨⟨true⟩, fw, fd, fi⟩ hwf (hokRest _ rfl)
        refine ⟨s', Ev.outWrite (stdoutLine d) :: evs, ?_, ?_, ?_, ?_, h4, h5⟩
        · simp only [flush, writeMessage_stdout_eq, bind_ok_eq, hf, List.singleton_append, List.cons_append, List.nil_append]
        · rw [stdoutMsgs_stdout]; simp [stdoutOut, h1]
        · rw [fileMsgs_stdout]; simpa [fileDataOut, bufOut] using h2
        · simpa [pureWrites] using h3
      · by_cases h1 : t = file
        · subst h1
          have hfo : fileOk ⟨⟨b⟩, fw, fd, fi⟩ :=
            hok ⟨⟨file, d⟩, List.mem_cons_self _ _, Or.inl rfl⟩
          cases fi with
          | true =>
              have hfw : fw ≠ none := hwf rfl
              obtain ⟨p, buf⟩ : ∃ p buf, fw = some (p, buf) := by
                cases fw with
                | none => exact absurd rfl hfw
                | some pr => exact ⟨pr.1, pr.2, rfl⟩
              obtain ⟨buf, hfw'⟩ := buf
              subst hfw'
              obtain ⟨s', evs, hf, h1', h2', h3', h4, h5⟩ :=
                ih ⟨⟨b⟩, some (p, buf ++ [fileLine d]), fd, true⟩
                  (fun _ => by simp) (hokRest _ (by simp [fileOk]))
              refine ⟨s', Ev.bufWrite p (fileLine d) :: evs, ?_, ?_, ?_, ?_, h4, h5⟩
              · simp only [flush, writeMessage_file_inst_eq, bind_ok_eq, hf, List.singleton_append, List.cons_append, List.nil_append]
              · rw [stdoutMsgs_file]; simpa [stdoutOut] using h1'
              · rw [fileMsgs_file]
                simp only [fileDataOut] at h2'
                simp [fileDataOut, bufOut, fileLine, h2']
              · simpa [pureWrites] using h3'
          | false =>
              have hfd : fd ≠ none := by
                rcases hfo with hfo | hfo
                · exact absurd hfo (by simp)
                · exact hfo
              obtain ⟨p, hfd'⟩ : ∃ p, fd = some p := by
                cases fd with
                | none => exact absurd rfl hfd
                | some p => exact ⟨p, rfl⟩
              subst hfd'
              obtain ⟨s', evs, hf, h1', h2', h3', h4, h5⟩ :=
                ih ⟨⟨b⟩, some (p, [blankLine, fileLine d]), some p, true⟩
                  (fun _ => by simp) (hokRest _ (by simp [fileOk]))
              refine ⟨s', Ev.bufWrite p blankLine :: Ev.bufWrite p (fileLine d) :: evs,
                ?_, ?_, ?_, ?_, h4, by simpa using h5⟩
              · simp only [flush, writeMessage_file_fresh_eq, bind_ok_eq, hf, List.singleton_append, List.cons_append, List.nil_append]
              · rw [stdoutMsgs_file]; simpa [stdoutOut] using h1'
              · rw [fileMsgs_file]
                simp only [fileDataOut] at h2'
                simp [fileDataOut, bufOut, fileLine, blankLine, h2']
              · simpa [pureWrites] using h3'
        · by_cases h2 : t = multi
          · subst h2
            have hfo : fileOk ⟨⟨b⟩, fw, fd, fi⟩ :=
              hok ⟨⟨multi, d⟩, List.mem_cons_self _ _, Or.inr rfl⟩
            cases fi with
            | true =>
                have hfw : fw ≠ none := hwf rfl
                obtain ⟨p, buf⟩ : ∃ p buf, fw = some (p, buf) := by
                  cases fw with
                  | none => exact absurd rfl hfw
                  | some pr => exact ⟨pr.1, pr.2, rfl⟩
                obtain ⟨buf, hfw'⟩ := buf
                subst hfw'
                obtain ⟨s', evs, hf, h1', h2', h3', h4, h5⟩ :=
                  ih ⟨⟨true⟩, some (p, buf ++ [fileLine d]), fd, true⟩
                    (fun _ => by simp) (hokRest _ (by simp [fileOk]))
                refine ⟨s', Ev.outWrite (stdoutLine d) :: Ev.bufWrite p (fileLine d) :: evs,
                  ?_, ?_, ?_, ?_, h4, h5⟩
                · simp only [flush, writeMessage_multi_inst_eq, bind_ok_eq, hf, List.singleton_append, List.cons_append, List.nil_append]
                · rw [stdoutMsgs_multi]; simpa [stdoutOut] using h1'
                · rw [fileMsgs_multi]
                  simp only [fileDataOut] at h2'
                  simp [fileDataOut, bufOut, fileLine, h2']
                · simpa [pureWrites] using h3'
            | false =>
                have hfd : fd ≠ none := by
                  rcases hfo with hfo | hfo
                  · exact absurd hfo (by simp)
                  · exact hfo
                obtain ⟨p, hfd'⟩ : ∃ p, fd = some p := by
                  cases fd with
                  | none => exact absurd rfl hfd
                  | some p => exact ⟨p, rfl⟩
                subst hfd'
                obtain ⟨s', evs, hf, h1', h2', h3', h4, h5⟩ :=
                  ih ⟨⟨true⟩, some (p, [blankLine, fileLine d]), some p, true⟩
                    (fun _ => by simp) (hokRest _ (by simp [fileOk]))
                refine ⟨s', Ev.outWrite (stdoutLine d) :: Ev.bufWrite p blankLine ::
                    Ev.bufWrite p (fileLine d) :: evs,
                  ?_, ?_, ?_, ?_, h4, by simpa using h5⟩
                · simp only [flush, writeMessage_multi_fresh_eq, bind_ok_eq, hf, List.singleton_append, List.cons_append, List.nil_append]
                · rw [stdoutMsgs_multi]; simpa [stdoutOut] using h1'
                · rw [fileMsgs_multi]
                  simp only [fileDataOut] at h2'
                  simp [fileDataOut, bufOut, fileLine, blankLine, h2']
                · simpa [pureWrites] using h3'
          · obtain ⟨s', evs, hf, h1', h2', h3', h4, h5⟩ :=
              ih ⟨⟨b⟩, fw, fd, fi⟩ hwf (hokRest _ rfl)
            refine ⟨s', evs, ?_, ?_, ?_, h3', h4, h5⟩
            · simp only [flush, writeMessage_other_eq _ t d h0 h1 h2, bind_ok_eq, hf, List.singleton_append, List.cons_append, List.nil_append]
            · rw [stdoutMsgs_other t d rest h0 h2]; exact h1'
            · rw [fileMsgs_other t d rest h1 h2]; exact h2'

/-- Draining a FIFO queue while the cached file logger exists: no blank
separator is inserted, the buffered writer accumulates exactly the queue's
file lines behind its current contents, the descriptor is untouched, and
the emitted events are writes only, FIFO per target. -/
theorem flush_inst (q : List logMessage) : ∀ (b : Bool) (fd : Option String)
    (p : String) (buf : List Line),
    ∃ b' evs, flush ⟨⟨b⟩, ⟨some (p, buf), fd, true⟩⟩ q =
        .ok (⟨⟨b'⟩, ⟨some (p, buf ++ fileMsgs q), fd, true⟩⟩, evs) ∧
      stdoutOut evs = stdoutMsgs q ∧
      bufOut evs = fileMsgs q ∧
      pureWrites evs = true := by
  induction q with
  | nil =>
      intro b fd p buf
      exact ⟨b, [], by simp [flush, fileMsgs], rfl, rfl, rfl⟩
  | cons msg rest ih =>
      intro b fd p buf
      obtain ⟨t, d⟩ := msg
      by_cases h0 : t = stdout
      · subst h0
        obtain ⟨b', evs, hf, h1, h2, h3⟩ := ih true fd p buf
        refine ⟨b', Ev.outWrite (stdoutLine d) :: evs, ?_, ?_, ?_, ?_⟩
        · rw [fileMsgs_stdout]
          simp only [flush, writeMessage_stdout_eq, bind_ok_eq, hf,
            List.singleton_append]
        · rw [stdoutMsgs_stdout]; simp [stdoutOut, h1]
        · rw [fileMsgs_stdout]; simpa [bufOut] using h2
        · simpa [pureWrites] using h3
      · by_cases h1 : t = file
        · subst h1
          obtain ⟨b', evs, hf, h1', h2', h3'⟩ := ih b fd p (buf ++ [fileLine d])
          refine ⟨b', Ev.bufWrite p (fileLine d) :: evs, ?_, ?_, ?_, ?_⟩
          · rw [fileMsgs_file]
            simp only [flush, writeMessage_file_inst_eq, bind_ok_eq, hf,
              List.singleton_append, List.append_assoc, List.cons_append,
              List.nil_append]
          · rw [stdoutMsgs_file]; simpa [stdoutOut] using h1'
          · rw [fileMsgs_file]; simp [bufOut, h2']
          · simpa [pureWrites] using h3'
        · by_cases h2 : t = multi
          · subst h2
            obtain ⟨b', evs, hf, h1', h2', h3'⟩ := ih true fd p (buf ++ [fileLine d])
            refine ⟨b', Ev.outWrite (stdoutLine d) :: Ev.bufWrite p (fileLine d) :: evs,
              ?_, ?_, ?_, ?_⟩
            · rw [fileMsgs_multi]
              simp only [flush, writeMessage_multi_inst_eq, bind_ok_eq, hf,
                List.singleton_append, List.append_assoc, List.cons_append,
                List.nil_append]
            · rw [stdoutMsgs_multi]; simp [stdoutOut, h1']
            · rw [fileMsgs_multi]; simp [bufOut, h2']
            · simpa [pureWrites] using h3'
          · obtain ⟨b', evs, hf, h1', h2', h3'⟩ := ih b fd p buf
            refine ⟨b', evs, ?_, ?_, ?_, h3'⟩
            · rw [fileMsgs_other t d rest h1 h2]
              simp only [flush, writeMessage_other_eq _ t d h0 h1 h2, bind_ok_eq,
                hf, List.nil_append]
            · rw [stdoutMsgs_other t d rest h0 h2]; exact h1'
            · rw [fileMsgs_other t d rest h1 h2]; exact h2'

theorem fileMsgs_map_file (ds : List String) :
    fileMsgs (ds.map (fun x => ⟨file, x⟩)) = ds.map fileLine := by
  induction ds with
  | nil => rfl
  | cons d ds ih => rw [List.map_cons, fileMsgs_file, ih, List.map_cons]

/-- C1: on receiving the stop signal the writer drains every message
remaining in the data channel with zero loss — the queue is emptied, the
stdout lines are exactly the queue's stdout/multi payloads in FIFO order
and the timestamped file lines are exactly the queue's file/multi payloads
in FIFO order — and only after all those writes does it signal the Stopped
state, as its last step before terminating. -/
theorem stop_drains_fifo (q : List logMessage) (s : multiLog)
    (hwf : wfFile s)
    (hok : (∃ msg ∈ q, msg.target = file ∨ msg.target = multi) → fileOk s) :
    ∃ s' evs, handleStop ⟨q, s⟩ = .ok (⟨[], s'⟩, evs ++ [Ev.sigStopped]) ∧
      stdoutOut evs = stdoutMsgs q ∧
      fileDataOut evs = fileMsgs q ∧
      pureWrites evs = true := by
  obtain ⟨s', evs, hf, h1, h2, h3, _, _⟩ := flush_ok q s hwf hok
  refine ⟨s', evs, ?_, h1, h2, h3⟩
  simp only [handleStop, bind_ok_eq, hf]

/-- Witness for C1: a stopped service with queue `[stdout "a", multi "b"]`
and an initialized log file drains both messages, FIFO per target, before
signalling Stopped. -/
theorem stop_drains_fifo_witness :
    ∃ s' evs, handleStop ⟨[⟨stdout, "a"⟩, ⟨multi, "b"⟩],
        ⟨⟨false⟩, ⟨none, some "log", false⟩⟩⟩
        = .ok (⟨[], s'⟩, evs ++ [Ev.sigStopped]) ∧
      stdoutOut evs = stdoutMsgs [⟨stdout, "a"⟩, ⟨multi, "b"⟩] ∧
      fileDataOut evs = fileMsgs [⟨stdout, "a"⟩, ⟨multi, "b"⟩] ∧
      pureWrites evs = true :=
  stop_drains_fifo _ _ (fun h => Bool.noConfusion h)
    (fun _ => Or.inr (fun h => Option.noConfusion h))

/-- C8: a Multi-target message is written to stdout first and then to the
file, with the identical payload on both; the stdout copy carries no
timestamp prefix and the file copy carries the timestamp prefix.  The
first conjunct covers a cached file logger, the second the lazily created
one (the blank separator precedes the data line, still stdout first). -/
theorem writeMulti_order (b : Bool) (fw : Option (String × List Line))
    (fd : Option String) (p : String) (buf : List Line) (d : String) :
    (writeMessage ⟨⟨b⟩, ⟨some (p, buf), fd, true⟩⟩ ⟨multi, d⟩ =
      .ok (⟨⟨true⟩, ⟨some (p, buf ++ [fileLine d]), fd, true⟩⟩,
           [Ev.outWrite (stdoutLine d), Ev.bufWrite p (fileLine d)])) ∧
    (writeMessage ⟨⟨b⟩, ⟨fw, some p, false⟩⟩ ⟨multi, d⟩ =
      .ok (⟨⟨true⟩, ⟨some (p, [blankLine, fileLine d]), some p, true⟩⟩,
           [Ev.outWrite (stdoutLine d), Ev.bufWrite p blankLine,
            Ev.bufWrite p (fileLine d)])) ∧
    stdoutLine d = ⟨false, d⟩ ∧ fileLine d = ⟨true, d⟩ :=
  ⟨writeMessage_multi_inst_eq b fd p buf d, writeMessage_multi_fresh_eq b fw p d,
   rfl, rfl⟩

/-- C7 counterexample: in the concrete run open "a", write one file
message, switch to "b", shut down, the file "b" is opened but no blank
separator line is ever written to it (its contents stay empty), because
the separator is only written when the file logger instance is recreated
at the next file write — not immediately after the (re)open as claimed. -/
theorem separator_counterexample :
    c7run = .ok (c7finalState, c7trace) ∧
      Ev.fileOpen "b" ∈ c7trace ∧
      fileContents "b" c7trace = [] :=
  ⟨rfl, by simp [c7trace], rfl⟩

/-- C7 amended: the blank separator is written lazily.  After a (re)open
that left no cached file logger, the first file-targeted write inserts
exactly one blank line into the buffer, before the first data line, and no
further write adds a blank (the recreated instance persists): the lines
entering the buffer are `blankLine` followed by exactly the data lines,
and the blank is not among the data lines. -/
theorem separator_once_per_open (b : Bool) (fw : Option (String × List Line))
    (p d : String) (ds : List String) :
    ∃ b' evs, flush ⟨⟨b⟩, ⟨fw, some p, false⟩⟩
        ((d :: ds).map (fun x => ⟨file, x⟩)) =
        .ok (⟨⟨b'⟩, ⟨some (p, [blankLine, fileLine d] ++ ds.map fileLine),
          some p, true⟩⟩, evs) ∧
      bufOut evs = blankLine :: (d :: ds).map fileLine ∧
      blankLine ∉ (d :: ds).map fileLine := by
  obtain ⟨b', evs, hf, h1, h2, h3⟩ :=
    flush_inst (ds.map (fun x => ⟨file, x⟩)) b (some p) p [blankLine, fileLine d]
  refine ⟨b', Ev.bufWrite p blankLine :: Ev.bufWrite p (fileLine d) :: evs, ?_, ?_, ?_⟩
  · simp only [List.map_cons, flush, writeMessage_file_fresh_eq, bind_ok_eq, hf,
      fileMsgs_map_file, List.cons_append, List.nil_append]
  · simp [bufOut, h2, fileMsgs_map_file]
  · simp [blankLine, fileLine]

/-- Write-path behaviour of the switch workflow, for states where the
buffered file writer exists (at least one file-targeted write since the
logger was created): processing a SwitchLog/ChangeLogName request first
drains every message already in the data channel into the old file's
buffered writer (write events `e1`, FIFO), then flushes the buffer to the
old file and closes it, discards the cached file-logger instance
(recreated lazily), and only then opens the new path and acknowledges:
the trace is exactly writes, flush-to-old, close-old, open-new, done —
so the old file receives every pre-switch message, the new file receives
none of them, and the old handle is closed before the new one opens.
Without that writer the request crashes instead, see the claim theorem
below. -/
theorem switchLog_spec (q : List logMessage) (s : multiLog) (p newPath : String)
    (buf : List Line)
    (hi : s.fileLogInstance = true) (hw : s.fileWriter = some (p, buf))
    (hd : s.fileDesc = some p) (hne : newPath ≠ p) :
    ∃ s' e1 evs, handleNewlog ⟨q, s⟩ newPath = .ok (⟨[], s'⟩, evs) ∧
      evs = e1 ++ ((if (buf ++ fileMsgs q).isEmpty then []
            else [Ev.fileFlush p (buf ++ fileMsgs q)]) ++
          [Ev.fileClose p, Ev.fileOpen newPath, Ev.sigDone]) ∧
      pureWrites e1 = true ∧
      stdoutOut e1 = stdoutMsgs q ∧
      bufOut e1 = fileMsgs q ∧
      s'.fileLogInstance = false ∧
      s'.fileDesc = some newPath ∧
      fileContents p evs = buf ++ fileMsgs q ∧
      fileContents newPath evs = [] := by
  obtain ⟨⟨b⟩, fw, fd, fi⟩ := s
  have hfi : fi = true := hi
  have hfw : fw = some (p, buf) := hw
  have hfd : fd = some p := hd
  subst hfi hfw hfd
  obtain ⟨b', e1, hf, h1, h2, h3⟩ := flush_inst q b (some p) p buf
  have hpn : (p == newPath) = false := by
    simp only [beq_eq_false_iff_ne]
    exact Ne.symm hne
  refine ⟨⟨⟨b'⟩, ⟨some (p, []), some newPath, false⟩⟩, e1,
    e1 ++ ((if (buf ++ fileMsgs q).isEmpty then []
        else [Ev.fileFlush p (buf ++ fileMsgs q)]) ++
      [Ev.fileClose p, Ev.fileOpen newPath, Ev.sigDone]),
    ?_, rfl, h3, h1, h2, rfl, rfl, ?_, ?_⟩
  · have hch : multiLog.changeLogFileName
        ⟨⟨b'⟩, ⟨some (p, buf ++ fileMsgs q), some p, true⟩⟩ newPath =
        .ok (⟨⟨b'⟩, ⟨some (p, []), some newPath, false⟩⟩,
          ((if (buf ++ fileMsgs q).isEmpty then []
            else [Ev.fileFlush p (buf ++ fileMsgs q)]) ++ [Ev.fileClose p])
            ++ [Ev.fileOpen newPath]) := rfl
    simp only [handleNewlog, bind_ok_eq, hf, hch, List.append_assoc,
      List.cons_append, List.nil_append]
  · rw [fileContents_append, fileContents_of_pureWrites p e1 h3]
    by_cases hE : (buf ++ fileMsgs q).isEmpty
    · rw [List.isEmpty_iff] at hE
      simp [hE, fileContents]
    · simp [hE, fileContents]
  · rw [fileContents_append, fileContents_of_pureWrites newPath e1 h3]
    by_cases hE : (buf ++ fileMsgs q).isEmpty
    · simp [hE, fileContents]
    · simp [hE, fileContents, hpn]

/-- Concrete instance of `switchLog_spec`: switching from "a" (buffer holding the separator,
queue holding one multi message) to "b" flushes the message to "a",
closes "a" before opening "b", and leaves "b" with no prior content. -/
theorem switchLog_spec_witness :
    ∃ s' e1 evs, handleNewlog ⟨[⟨multi, "m"⟩],
        ⟨⟨false⟩, ⟨some ("a", [blankLine]), some "a", true⟩⟩⟩ "b" =
        .ok (⟨[], s'⟩, evs) ∧
      evs = e1 ++ ((if ([blankLine] ++ fileMsgs [⟨multi, "m"⟩]).isEmpty then []
            else [Ev.fileFlush "a" ([blankLine] ++ fileMsgs [⟨multi, "m"⟩])]) ++
          [Ev.fileClose "a", Ev.fileOpen "b", Ev.sigDone]) ∧
      pureWrites e1 = true ∧
      stdoutOut e1 = stdoutMsgs [⟨multi, "m"⟩] ∧
      bufOut e1 = fileMsgs [⟨multi, "m"⟩] ∧
      s'.fileLogInstance = false ∧
      s'.fileDesc = some "b" ∧
      fileContents "a" evs = [blankLine] ++ fileMsgs [⟨multi, "m"⟩] ∧
      fileContents "b" evs = [] :=
  switchLog_spec [⟨multi, "m"⟩] ⟨⟨false⟩, ⟨some ("a", [blankLine]), some "a", true⟩⟩
    "a" "b" [blankLine] rfl rfl rfl (by decide)

/-- Write-path behaviour of shutdown, for states where the buffered file
writer exists (at least one file-targeted write since the logger was
created): completing a shutdown flushes the buffered writer to the open
log file, closes it (a close event for its path is in the trace) and
clears the descriptor to nil, so in a restarted (running) service
`WriteToFile` and `WriteToMulti` fail with "log file not initialized"
until `InitLogFile` opens a file again, after which `WriteToFile`
succeeds.  Without that writer the stop path crashes instead, see the
claim theorem below. -/
theorem shutdown_clears_file (q : List logMessage) (s : multiLog) (p : String)
    (buf : List Line) (msg nm : String)
    (hi : s.fileLogInstance = true) (hw : s.fileWriter = some (p, buf))
    (hd : s.fileDesc = some p) :
    ∃ s' evs, shutdownProcess ⟨q, s⟩ = .ok (⟨[], s'⟩, evs) ∧
      s'.fileDesc = none ∧
      Ev.fileClose p ∈ evs ∧
      fileContents p evs = buf ++ fileMsgs q ∧
      WriteToFile running s'.fileDesc msg = .error m001 ∧
      WriteToMulti running s'.fileDesc msg = .error m001 ∧
      WriteToFile running ((s'.setupLogFile nm).1.fileDesc) msg =
        .ok (Send.dataMsg ⟨file, msg⟩) := by
  obtain ⟨⟨b⟩, fw, fd, fi⟩ := s
  have hfi : fi = true := hi
  have hfw : fw = some (p, buf) := hw
  have hfd : fd = some p := hd
  subst hfi hfw hfd
  obtain ⟨b', e1, hf, h1, h2, h3⟩ := flush_inst q b (some p) p buf
  refine ⟨⟨⟨b'⟩, ⟨some (p, []), none, true⟩⟩,
    (e1 ++ [Ev.sigStopped]) ++ ((if (buf ++ fileMsgs q).isEmpty then []
        else [Ev.fileFlush p (buf ++ fileMsgs q)]) ++ [Ev.fileClose p]),
    ?_, rfl, ?_, ?_, rfl, rfl, rfl⟩
  · have hstop : handleStop ⟨q, ⟨⟨b⟩, ⟨some (p, buf), some p, true⟩⟩⟩ =
        .ok (⟨[], ⟨⟨b'⟩, ⟨some (p, buf ++ fileMsgs q), some p, true⟩⟩⟩,
          e1 ++ [Ev.sigStopped]) := by
      simp only [handleStop, bind_ok_eq, hf]
    have hclose : multiLog.closeLogFile
        ⟨⟨b'⟩, ⟨some (p, buf ++ fileMsgs q), some p, true⟩⟩ =
        .ok (⟨⟨b'⟩, ⟨some (p, []), none, true⟩⟩,
          (if (buf ++ fileMsgs q).isEmpty then []
            else [Ev.fileFlush p (buf ++ fileMsgs q)]) ++ [Ev.fileClose p]) := rfl
    simp only [shutdownProcess, bind_ok_eq, hstop, hclose]
  · exact List.mem_append_right _ (List.mem_append_right _ (by simp))
  · rw [fileContents_append, fileContents_append,
      fileContents_of_pureWrites p e1 h3]
    by_cases hE : (buf ++ fileMsgs q).isEmpty
    · rw [List.isEmpty_iff] at hE
      simp [hE, fileContents]
    · simp [hE, fileContents]

/-- Concrete instance of `shutdown_clears_file`: shutting down a service whose log file "a" is open
with a buffered separator closes and clears the handle; file writes in the
restarted service fail with "log file not initialized" until a new init. -/
theorem shutdown_clears_file_witness :
    ∃ s' evs, shutdownProcess ⟨[], ⟨⟨false⟩, ⟨some ("a", [blankLine]), some "a", true⟩⟩⟩
        = .ok (⟨[], s'⟩, evs) ∧
      s'.fileDesc = none ∧
      Ev.fileClose "a" ∈ evs ∧
      fileContents "a" evs = [blankLine] ++ fileMsgs [] ∧
      WriteToFile running s'.fileDesc "x" = .error m001 ∧
      WriteToMulti running s'.fileDesc "x" = .error m001 ∧
      WriteToFile running ((s'.setupLogFile "b").1.fileDesc) "x" =
        .ok (Send.dataMsg ⟨file, "x"⟩) :=
  shutdown_clears_file [] ⟨⟨false⟩, ⟨some ("a", [blankLine]), some "a", true⟩⟩
    "a" [blankLine] "x" "b" rfl rfl rfl

/-- C2: evaluation of the code at the failing input.  After `InitLogFile
"a"` on a fresh service with no file-targeted write in between, a
`ChangeLogName "b"` request reaches `closeLogFile` with the descriptor set
but the `*bufio.Writer` still nil, and `s.fileWriter.Buffered()`
nil-dereferences: the request crashes — the old handle is never closed,
the new path never opened, and completion never acknowledged, contrary to
the claim (and to the repository's own `Test_service_changeLogFile`,
which runs exactly this no-write switch sequence and expects success). -/
theorem switchLog_nil_writer_crash :
    handleNewlog (handleInitlog ⟨[], multiLog.init⟩ "a").1 "b" =
      .error "nil fileWriter" := rfl

/-- C10: evaluation of the code at the failing input.  After `InitLogFile
"a"` on a fresh service with no file-targeted write, the stop path's
`closeLogFile` calls `Buffered()` on the nil `*bufio.Writer` and crashes:
Shutdown never completes, and the file handle is neither flushed nor
closed nor cleared, contrary to the claim (and to the repository's own
`Test_service_initLogFile`, which runs exactly this no-write
init-then-shutdown sequence and expects success). -/
theorem shutdown_nil_writer_crash :
    shutdownProcess (handleInitlog ⟨[], multiLog.init⟩ "a").1 =
      .error "nil fileWriter" := rfl

end Simplelog
